import Mathlib

/-!
# Verification of the anteater-api search aggregator and degrees layer

This development embeds, in Lean, the parts of the anteater-api repository
needed to settle the frozen claims:

* the search aggregation layer (`SearchService.doSearch` and the REST
  search route).  The aggregator implementation itself is not part of the
  provided sources (only its caller `src/apps/api/src/rest/routes/search.ts`
  is), so the aggregator is modelled from the specification (spec §3, §4.1,
  §4.2, §6, §7); every such definition is marked `Modelled from the spec:`.
* the GraphQL degrees resolvers (`degreesResolvers` in the unnamed source
  file `src/unnamed/part_002`) and `DegreesService.updateDegree`
  (`src/apps/api/src/services/degrees.ts`), which are embedded from the
  source.
-/

namespace Anteater

/-! ## Search data model (modelled from the spec) -/

/-- Modelled from the spec: a Course entity as consumed by the search
aggregator (spec §3).  The entity identifier is modelled as a `Nat` so the
"entity identifier ascending" tie-break (spec §4.1 step 4) is a plain
numeric order; `title` is the text field scored for relevance. -/
structure Course where
  id : Nat
  title : String
deriving Repr, DecidableEq

/-- Modelled from the spec: an Instructor entity as consumed by the search
aggregator (spec §3); `name` is the text field scored for relevance. -/
structure Instructor where
  id : Nat
  name : String
deriving Repr, DecidableEq

/-- Modelled from the spec: the `resultTypes` set over {COURSE, INSTRUCTOR}
(spec §3), represented by one membership flag per entity type. -/
structure ResultTypes where
  course : Bool
  instructor : Bool
deriving Repr, DecidableEq

/-- Modelled from the spec: a SearchQuery (spec §3):
queryText, resultTypes, skip, take.  `skip` and `take` are naturals
(`skip` must be non-negative; `take` positive, clamped server-side). -/
structure SearchQuery where
  queryText : String
  resultTypes : ResultTypes
  skip : Nat
  take : Nat
deriving Repr, DecidableEq

/-- Modelled from the spec: a SearchResultItem, the tagged union over
CourseResult and InstructorResult (spec §3).  The constructor is the
discriminant field; each item carries the wrapped entity's fields and the
relevance score assigned by its repository. -/
inductive SearchResultItem where
  | courseResult (id : Nat) (title : String) (score : Nat)
  | instructorResult (id : Nat) (name : String) (score : Nat)
deriving Repr, DecidableEq

/-- The relevance score carried by a search result item. -/
def SearchResultItem.score : SearchResultItem → Nat
  | .courseResult _ _ s => s
  | .instructorResult _ _ s => s

/-- Insertion rank of the item's entity type: COURSE before INSTRUCTOR
(spec §4.1 step 4). -/
def SearchResultItem.typeRank : SearchResultItem → Nat
  | .courseResult _ _ _ => 0
  | .instructorResult _ _ _ => 1

/-- The wrapped entity's identifier, the stable secondary tie-break key. -/
def SearchResultItem.entityId : SearchResultItem → Nat
  | .courseResult i _ _ => i
  | .instructorResult i _ _ => i

/-- Discriminant test: is this item a CourseResult? -/
def SearchResultItem.isCourse : SearchResultItem → Bool
  | .courseResult _ _ _ => true
  | .instructorResult _ _ _ => false

/-- Modelled from the spec: a SearchResponse (spec §3): the ordered items
sequence and the unpaginated total match count. -/
structure SearchResponse where
  items : List SearchResultItem
  totalCount : Nat
deriving Repr, DecidableEq

/-- Modelled from the spec: the search error taxonomy (spec §7):
`ValidationError` for bad input, `RepositoryError` for an underlying
data-access failure. -/
inductive SearchError where
  | validationError
  | repositoryError
deriving Repr, DecidableEq

/-- A read query issued to one Entity Repository, recorded so that
"no repository call is made" claims are statable. -/
inductive RepoCall where
  | course
  | instructor
deriving Repr, DecidableEq

/-- Modelled from the spec: the repository state visible to the aggregator
(spec §4.2): the rows of each entity table, plus one failure flag per
repository modelling a `RepositoryError` on its lookup. -/
structure Repos where
  courses : List Course
  instructors : List Instructor
  courseFails : Bool
  instructorFails : Bool
deriving Repr, DecidableEq

/-! ## Matching and scoring (modelled from the spec) -/

/-- A string's characters, lower-cased, so matching is case-insensitive. -/
def lowered (s : String) : List Char :=
  s.toList.map Char.toLower

/-- Case-insensitive substring test: does `hay` contain `needle` ignoring
case (spec §4.1 step 1: "case-insensitive substring/fuzzy filter")? -/
def containsCI (hay needle : String) : Bool :=
  (lowered hay).tails.any fun t => (lowered needle).isPrefixOf t

/-- Is the query text empty after trimming, i.e. all whitespace
(spec §4.1 Inputs: "queryText must be non-empty after trimming")? -/
def blankQuery (s : String) : Bool :=
  s.toList.all Char.isWhitespace

/-- Modelled from the spec: the relevance score (spec glossary, §4.1
step 4: both entity types scored "by the same text-similarity function
applied to the same field such as name/title").  Modelled as a simple
length-based similarity of the query against the scored field: zero when
the field does not match, larger the closer the field's length is to the
query's. -/
def relevance (queryText field : String) : Nat :=
  if containsCI field queryText then (100 * queryText.length) / max 1 field.length
  else 0

/-- Modelled from the spec: the course repository's unpaginated matches for
a query text (spec §4.2 `findByText`): the courses whose title contains the
text case-insensitively, in table order. -/
def courseMatches (repos : Repos) (qt : String) : List Course :=
  repos.courses.filter fun c => containsCI c.title qt

/-- Modelled from the spec: the instructor repository's unpaginated matches
for a query text (spec §4.2 `findByText`). -/
def instructorMatches (repos : Repos) (qt : String) : List Instructor :=
  repos.instructors.filter fun i => containsCI i.name qt

/-- Modelled from the spec: the server-side cap on `take` (spec §3, §4.1:
"max enforced by the aggregator"). -/
def MAX_TAKE : Nat := 100

/-- Modelled from the spec: the clamped page size: out-of-range `take`
values are clamped into [1, MAX_TAKE] rather than rejected (spec §4.1
Inputs, clamping policy). -/
def effectiveTake (t : Nat) : Nat := max 1 (min t MAX_TAKE)

/-! ## Merge ordering (spec §4.1 step 4) -/

/-- The documented merge order as a proposition: relevance score
descending, then COURSE before INSTRUCTOR, then entity identifier
ascending. -/
def itemOrdered (a b : SearchResultItem) : Prop :=
  b.score < a.score ∨
    (a.score = b.score ∧
      (a.typeRank < b.typeRank ∨ (a.typeRank = b.typeRank ∧ a.entityId ≤ b.entityId)))

instance : DecidableRel itemOrdered := fun a b =>
  decidable_of_iff
    (b.score < a.score ∨
      (a.score = b.score ∧
        (a.typeRank < b.typeRank ∨ (a.typeRank = b.typeRank ∧ a.entityId ≤ b.entityId))))
    Iff.rfl

instance : IsTotal SearchResultItem itemOrdered :=
  ⟨fun a b => by unfold itemOrdered; omega⟩

instance : IsTrans SearchResultItem itemOrdered :=
  ⟨fun a b c hab hbc => by unfold itemOrdered at *; omega⟩

/-! ## The aggregator (modelled from the spec §4.1) -/

/-- Tag a course match with its discriminant and relevance score
(spec §4.1 steps 2–3). -/
def tagCourse (qt : String) (c : Course) : SearchResultItem :=
  .courseResult c.id c.title (relevance qt c.title)

/-- Tag an instructor match with its discriminant and relevance score
(spec §4.1 steps 2–3). -/
def tagInstructor (qt : String) (i : Instructor) : SearchResultItem :=
  .instructorResult i.id i.name (relevance qt i.name)

/-- Modelled from the spec: the tagged, unmerged results drawn from
whichever entity types are requested (spec §4.1 steps 1–3). -/
def taggedItems (repos : Repos) (q : SearchQuery) : List SearchResultItem :=
  (if q.resultTypes.course then (courseMatches repos q.queryText).map (tagCourse q.queryText)
   else []) ++
  (if q.resultTypes.instructor then
    (instructorMatches repos q.queryText).map (tagInstructor q.queryText)
   else [])

/-- Modelled from the spec: the merged sequence, sorted by the documented
ordering policy (spec §4.1 step 4). -/
def mergedItems (repos : Repos) (q : SearchQuery) : List SearchResultItem :=
  List.insertionSort itemOrdered (taggedItems repos q)

/-- Modelled from the spec: `totalCount` = sum of unpaginated match counts
from the requested repositories (spec §4.1 step 5). -/
def totalMatchCount (repos : Repos) (q : SearchQuery) : Nat :=
  (if q.resultTypes.course then (courseMatches repos q.queryText).length else 0) +
  (if q.resultTypes.instructor then (instructorMatches repos q.queryText).length else 0)

/-- The repository calls issued when the course repository is consulted. -/
def courseCallList (q : SearchQuery) : List RepoCall :=
  if q.resultTypes.course then [RepoCall.course] else []

/-- The repository calls issued when both requested repositories are
consulted. -/
def callList (q : SearchQuery) : List RepoCall :=
  courseCallList q ++ (if q.resultTypes.instructor then [RepoCall.instructor] else [])

/-- The aggregator's observable outcome: the result delivered to the
transport layer together with the repository calls it issued. -/
structure SearchOutcome where
  result : Except SearchError SearchResponse
  calls : List RepoCall
deriving Repr

/-- Modelled from the spec: `SearchService.doSearch` (spec §4.1).
Validation first (empty-after-trim `queryText` fails with
`ValidationError` before any repository call); then the requested
repositories are consulted, fail-fast on `RepositoryError`; on success the
tagged results are merged by the documented order, `totalCount` is the sum
of unpaginated match counts, and the items are the slice
[skip, skip + effectiveTake take) of the merged sequence. -/
def doSearch (repos : Repos) (q : SearchQuery) : SearchOutcome :=
  if blankQuery q.queryText then ⟨.error .validationError, []⟩
  else if q.resultTypes.course && repos.courseFails then
    ⟨.error .repositoryError, courseCallList q⟩
  else if q.resultTypes.instructor && repos.instructorFails then
    ⟨.error .repositoryError, callList q⟩
  else
    ⟨.ok ⟨((mergedItems repos q).drop q.skip).take (effectiveTake q.take),
          totalMatchCount repos q⟩,
     callList q⟩

/-- The items delivered for a query, or `[]` when the search fails. -/
def searchItems (repos : Repos) (q : SearchQuery) : List SearchResultItem :=
  match (doSearch repos q).result with
  | .ok r => r.items
  | .error _ => []

/-- The HTTP status produced by the REST search route
(`src/apps/api/src/rest/routes/search.ts`: 200 on success, 422 when the
query parameters fail validation, 500 on a server error; spec §6). -/
def restSearchStatus (repos : Repos) (q : SearchQuery) : Nat :=
  match (doSearch repos q).result with
  | .ok _ => 200
  | .error .validationError => 422
  | .error .repositoryError => 500

/-! ### Inversion of a successful search -/

theorem doSearch_ok_inv {repos : Repos} {q : SearchQuery} {resp : SearchResponse}
    (h : (doSearch repos q).result = .ok resp) :
    resp.items = ((mergedItems repos q).drop q.skip).take (effectiveTake q.take) ∧
      resp.totalCount = totalMatchCount repos q := by
  obtain ⟨items, totalCount⟩ := resp
  unfold doSearch at h
  split_ifs at h
  all_goals simp_all

/-- The merged sequence is sorted by the documented ordering policy. -/
theorem mergedItems_pairwise (repos : Repos) (q : SearchQuery) :
    (mergedItems repos q).Pairwise itemOrdered :=
  List.sorted_insertionSort itemOrdered (taggedItems repos q)

/-- The delivered page is a sublist of the merged sequence. -/
theorem page_sublist (l : List SearchResultItem) (s t : Nat) :
    List.Sublist ((l.drop s).take t) l :=
  (List.take_sublist t (l.drop s)).trans (List.drop_sublist s l)

/-- The length of the merged sequence equals the sum of the unpaginated
match counts of the requested repositories. -/
theorem mergedItems_length (repos : Repos) (q : SearchQuery) :
    (mergedItems repos q).length = totalMatchCount repos q := by
  have hp := List.perm_insertionSort itemOrdered (taggedItems repos q)
  rw [mergedItems, hp.length_eq]
  cases hc : q.resultTypes.course <;> cases hi : q.resultTypes.instructor <;>
    simp [taggedItems, totalMatchCount, hc, hi]

/-- C1: for every valid SearchQuery, the items sequence of a successful
`doSearch` is sorted by relevance score descending, with ties broken by
COURSE-before-INSTRUCTOR and then by entity identifier ascending
(`itemOrdered` is exactly that lexicographic order); `doSearch` being a
function of the repository state and the query, the output is
deterministic. -/
theorem doSearch_items_sorted {repos : Repos} {q : SearchQuery} {resp : SearchResponse}
    (h : (doSearch repos q).result = .ok resp) :
    resp.items.Pairwise itemOrdered := by
  obtain ⟨hi, -⟩ := doSearch_ok_inv h
  rw [hi]
  exact List.Pairwise.sublist (page_sublist _ _ _) (mergedItems_pairwise repos q)

/-- C2: a successful `doSearch` on a valid query (positive `take`) returns
at most `min take MAX_TAKE` items: `take` is clamped server-side rather
than rejected. -/
theorem doSearch_items_length_le {repos : Repos} {q : SearchQuery} {resp : SearchResponse}
    (htake : 1 ≤ q.take) (h : (doSearch repos q).result = .ok resp) :
    resp.items.length ≤ min q.take MAX_TAKE := by
  obtain ⟨hi, -⟩ := doSearch_ok_inv h
  rw [hi]
  have h1 := List.length_take_le (effectiveTake q.take) ((mergedItems repos q).drop q.skip)
  have h2 : effectiveTake q.take = min q.take MAX_TAKE := by
    unfold effectiveTake MAX_TAKE at *
    omega
  omega

/-- C3: for a successful `doSearch`, when both result types are requested
`totalCount` is the sum of the unpaginated match counts of the course and
instructor repositories, and in every case `totalCount ≥ items.length`. -/
theorem doSearch_totalCount {repos : Repos} {q : SearchQuery} {resp : SearchResponse}
    (h : (doSearch repos q).result = .ok resp) :
    (q.resultTypes.course = true → q.resultTypes.instructor = true →
      resp.totalCount =
        (courseMatches repos q.queryText).length + (instructorMatches repos q.queryText).length) ∧
    resp.items.length ≤ resp.totalCount := by
  obtain ⟨hi, ht⟩ := doSearch_ok_inv h
  constructor
  · intro hc hins
    rw [ht]
    simp [totalMatchCount, hc, hins]
  · rw [hi, ht, ← mergedItems_length repos q]
    have h1 := List.length_take (effectiveTake q.take) ((mergedItems repos q).drop q.skip)
    have h2 := List.length_drop q.skip (mergedItems repos q)
    omega

/-- C4: a SearchQuery whose queryText is empty after trimming fails with
`ValidationError` (not an empty result set), no repository call is issued,
and the REST route surfaces the failure as HTTP 422. -/
theorem doSearch_empty_queryText {repos : Repos} {q : SearchQuery}
    (h : blankQuery q.queryText = true) :
    doSearch repos q = ⟨.error .validationError, []⟩ ∧ restSearchStatus repos q = 422 := by
  constructor
  · unfold doSearch
    simp [h]
  · unfold restSearchStatus doSearch
    simp [h]

/-- C5: if any requested Entity Repository lookup fails, `doSearch` fails
the whole request with the propagated `RepositoryError` — no partial items
or totalCount are returned — and the REST route surfaces it as HTTP 500. -/
theorem doSearch_repo_failure {repos : Repos} {q : SearchQuery}
    (hv : blankQuery q.queryText = false)
    (hf : (q.resultTypes.course = true ∧ repos.courseFails = true) ∨
          (q.resultTypes.instructor = true ∧ repos.instructorFails = true)) :
    (doSearch repos q).result = .error .repositoryError ∧ restSearchStatus repos q = 500 := by
  unfold restSearchStatus doSearch
  rcases hf with ⟨h1, h2⟩ | ⟨h1, h2⟩
  · simp [hv, h1, h2]
  · by_cases hc : (q.resultTypes.course && repos.courseFails) = true
    · simp [hv, hc]
    · simp [hv, hc, h1, h2]

/-- C6: when exactly {COURSE} is requested, every item of a successful
`doSearch` is a CourseResult, regardless of the instructor rows present. -/
theorem doSearch_course_only {repos : Repos} {q : SearchQuery} {resp : SearchResponse}
    (htypes : q.resultTypes = ⟨true, false⟩)
    (h : (doSearch repos q).result = .ok resp) :
    ∀ it ∈ resp.items, it.isCourse = true := by
  obtain ⟨hi, -⟩ := doSearch_ok_inv h
  intro it hit
  rw [hi] at hit
  have h1 : it ∈ mergedItems repos q := (page_sublist _ _ _).subset hit
  have h2 : it ∈ taggedItems repos q :=
    ((List.perm_insertionSort itemOrdered (taggedItems repos q)).mem_iff).1 h1
  simp only [taggedItems, htypes] at h2
  simp at h2
  obtain ⟨c, -, rfl⟩ := h2
  rfl

/-- C7: pagination composes over an unchanged repository state: for a
fixed queryText and resultTypes, the items of consecutive pages
(skip, take = t₁) and (skip + t₁, take = t₂) concatenate to the items of
the single window (skip, take = t₁ + t₂); with skip = 0, t₁ = t₂ = 2 this
is exactly the two-pages-of-two versus one-page-of-four consistency. -/
theorem searchItems_pagination (repos : Repos) (qt : String) (types : ResultTypes)
    (skip t1 t2 : Nat)
    (hv : blankQuery qt = false)
    (hcf : types.course = true → repos.courseFails = false)
    (hif : types.instructor = true → repos.instructorFails = false)
    (ht1 : 1 ≤ t1) (ht2 : 1 ≤ t2) (hsum : t1 + t2 ≤ MAX_TAKE) :
    searchItems repos ⟨qt, types, skip, t1⟩ ++ searchItems repos ⟨qt, types, skip + t1, t2⟩ =
      searchItems repos ⟨qt, types, skip, t1 + t2⟩ := by
  have hcc : (types.course && repos.courseFails) = false := by
    cases hc : types.course
    · simp
    · simp [hcf hc]
  have hii : (types.instructor && repos.instructorFails) = false := by
    cases hi : types.instructor
    · simp
    · simp [hif hi]
  have key : ∀ s t, searchItems repos ⟨qt, types, s, t⟩ =
      ((mergedItems repos ⟨qt, types, 0, 1⟩).drop s).take (effectiveTake t) := by
    intro s t
    unfold searchItems doSearch
    simp [hv, hcc, hii]
    rfl
  rw [key, key, key]
  have he1 : effectiveTake t1 = t1 := by
    unfold effectiveTake MAX_TAKE at *
    omega
  have he2 : effectiveTake t2 = t2 := by
    unfold effectiveTake MAX_TAKE at *
    omega
  have he3 : effectiveTake (t1 + t2) = t1 + t2 := by
    unfold effectiveTake MAX_TAKE at *
    omega
  rw [he1, he2, he3, List.take_add]
  congr 1
  rw [List.drop_drop]

/-! ### Concrete repository fixture used by the witnesses -/

/-- A small concrete repository state: four courses (three of which match
the query text "ab") and two instructors (one of which matches), with both
repositories healthy. -/
def fixRepos : Repos :=
  { courses := [⟨1, "xaby"⟩, ⟨2, "ab"⟩, ⟨3, "cab"⟩, ⟨4, "zz"⟩]
    instructors := [⟨5, "aab"⟩, ⟨6, "q"⟩]
    courseFails := false
    instructorFails := false }

theorem doSearch_items_sorted_witness :
    (doSearch fixRepos ⟨"ab", ⟨true, true⟩, 0, 5⟩).result =
      .ok ⟨[.courseResult 2 "ab" 100, .courseResult 3 "cab" 66,
            .instructorResult 5 "aab" 66, .courseResult 1 "xaby" 50], 4⟩ ∧
    ([SearchResultItem.courseResult 2 "ab" 100, .courseResult 3 "cab" 66,
      .instructorResult 5 "aab" 66, .courseResult 1 "xaby" 50]).Pairwise itemOrdered := by
  have h : (doSearch fixRepos ⟨"ab", ⟨true, true⟩, 0, 5⟩).result =
      .ok ⟨[.courseResult 2 "ab" 100, .courseResult 3 "cab" 66,
            .instructorResult 5 "aab" 66, .courseResult 1 "xaby" 50], 4⟩ := rfl
  exact ⟨h, doSearch_items_sorted h⟩

theorem doSearch_items_length_le_witness :
    1 ≤ (SearchQuery.mk "ab" ⟨true, true⟩ 0 5).take ∧
    (doSearch fixRepos ⟨"ab", ⟨true, true⟩, 0, 5⟩).result =
      .ok ⟨[.courseResult 2 "ab" 100, .courseResult 3 "cab" 66,
            .instructorResult 5 "aab" 66, .courseResult 1 "xaby" 50], 4⟩ ∧
    ([SearchResultItem.courseResult 2 "ab" 100, .courseResult 3 "cab" 66,
      .instructorResult 5 "aab" 66, .courseResult 1 "xaby" 50]).length ≤
      min (SearchQuery.mk "ab" ⟨true, true⟩ 0 5).take MAX_TAKE := by
  have h : (doSearch fixRepos ⟨"ab", ⟨true, true⟩, 0, 5⟩).result =
      .ok ⟨[.courseResult 2 "ab" 100, .courseResult 3 "cab" 66,
            .instructorResult 5 "aab" 66, .courseResult 1 "xaby" 50], 4⟩ := rfl
  exact ⟨by decide, h, doSearch_items_length_le (by decide) h⟩

theorem doSearch_totalCount_witness :
    (doSearch fixRepos ⟨"ab", ⟨true, true⟩, 0, 5⟩).result =
      .ok ⟨[.courseResult 2 "ab" 100, .courseResult 3 "cab" 66,
            .instructorResult 5 "aab" 66, .courseResult 1 "xaby" 50], 4⟩ ∧
    (((SearchQuery.mk "ab" ⟨true, true⟩ 0 5).resultTypes.course = true →
        (SearchQuery.mk "ab" ⟨true, true⟩ 0 5).resultTypes.instructor = true →
        (SearchResponse.mk [.courseResult 2 "ab" 100, .courseResult 3 "cab" 66,
            .instructorResult 5 "aab" 66, .courseResult 1 "xaby" 50] 4).totalCount =
          (courseMatches fixRepos "ab").length + (instructorMatches fixRepos "ab").length) ∧
      (SearchResponse.mk [.courseResult 2 "ab" 100, .courseResult 3 "cab" 66,
          .instructorResult 5 "aab" 66, .courseResult 1 "xaby" 50] 4).items.length ≤
        (SearchResponse.mk [.courseResult 2 "ab" 100, .courseResult 3 "cab" 66,
            .instructorResult 5 "aab" 66, .courseResult 1 "xaby" 50] 4).totalCount) := by
  have h : (doSearch fixRepos ⟨"ab", ⟨true, true⟩, 0, 5⟩).result =
      .ok ⟨[.courseResult 2 "ab" 100, .courseResult 3 "cab" 66,
            .instructorResult 5 "aab" 66, .courseResult 1 "xaby" 50], 4⟩ := rfl
  exact ⟨h, doSearch_totalCount h⟩

theorem doSearch_empty_queryText_witness :
    blankQuery (SearchQuery.mk "  " ⟨true, true⟩ 0 5).queryText = true ∧
    (doSearch fixRepos ⟨"  ", ⟨true, true⟩, 0, 5⟩ =
        ⟨.error .validationError, []⟩ ∧
      restSearchStatus fixRepos ⟨"  ", ⟨true, true⟩, 0, 5⟩ = 422) :=
  ⟨rfl, doSearch_empty_queryText rfl⟩

theorem doSearch_repo_failure_witness :
    blankQuery (SearchQuery.mk "ab" ⟨true, true⟩ 0 5).queryText = false ∧
    ((SearchQuery.mk "ab" ⟨true, true⟩ 0 5).resultTypes.course = true ∧
      (Repos.mk [⟨1, "ab"⟩] [⟨5, "aab"⟩] true false).courseFails = true) ∧
    ((doSearch (Repos.mk [⟨1, "ab"⟩] [⟨5, "aab"⟩] true false)
        ⟨"ab", ⟨true, true⟩, 0, 5⟩).result = .error .repositoryError ∧
      restSearchStatus (Repos.mk [⟨1, "ab"⟩] [⟨5, "aab"⟩] true false)
        ⟨"ab", ⟨true, true⟩, 0, 5⟩ = 500) :=
  ⟨rfl, ⟨rfl, rfl⟩, doSearch_repo_failure rfl (Or.inl ⟨rfl, rfl⟩)⟩

theorem doSearch_course_only_witness :
    (SearchQuery.mk "ab" ⟨true, false⟩ 0 5).resultTypes = ⟨true, false⟩ ∧
    (doSearch fixRepos ⟨"ab", ⟨true, false⟩, 0, 5⟩).result =
      .ok ⟨[.courseResult 2 "ab" 100, .courseResult 3 "cab" 66,
            .courseResult 1 "xaby" 50], 3⟩ ∧
    SearchResultItem.isCourse (.courseResult 3 "cab" 66) = true := by
  have ht : (SearchQuery.mk "ab" ⟨true, false⟩ 0 5).resultTypes = ⟨true, false⟩ := rfl
  have h : (doSearch fixRepos ⟨"ab", ⟨true, false⟩, 0, 5⟩).result =
      .ok ⟨[.courseResult 2 "ab" 100, .courseResult 3 "cab" 66,
            .courseResult 1 "xaby" 50], 3⟩ := rfl
  exact ⟨ht, h, doSearch_course_only ht h (.courseResult 3 "cab" 66) (by decide)⟩

theorem searchItems_pagination_witness :
    blankQuery "ab" = false ∧
    (1 ≤ 2 ∧ 2 + 2 ≤ MAX_TAKE) ∧
    searchItems fixRepos ⟨"ab", ⟨true, true⟩, 0, 2⟩ ++
        searchItems fixRepos ⟨"ab", ⟨true, true⟩, 0 + 2, 2⟩ =
      searchItems fixRepos ⟨"ab", ⟨true, true⟩, 0, 2 + 2⟩ :=
  ⟨rfl, ⟨by decide, by decide⟩,
    searchItems_pagination fixRepos "ab" ⟨true, true⟩ 0 2 2 rfl
      (fun _ => rfl) (fun _ => rfl) (by decide) (by decide) (by decide)⟩

/-! ## Degrees data model (from `src/apps/api/src/services/degrees.ts` and
the GraphQL degrees schema) -/

/-- A row of the `degree` table as the degrees service sees it: the
updatable columns `name`, `division`, `description`, plus the `created_at`
and `updated_at` timestamps (times modelled as naturals) and the id. -/
structure Degree where
  id : String
  name : String
  division : String
  description : Option String
  created_at : Nat
  updated_at : Nat
deriving Repr, DecidableEq

/-- The parsed `updateDegreeSchema` input: every column is optional, and a
key absent from the input object is `none`. -/
structure UpdateDegreeInput where
  name : Option String
  division : Option String
  description : Option String
deriving Repr, DecidableEq

/-- The parsed `createDegreeSchema` input: `name` and `division` required,
`description` optional. -/
structure CreateDegreeInput where
  name : String
  division : String
  description : Option String
deriving Repr, DecidableEq

namespace DegreesService

/-- The drizzle update payload `{ ...input, updated_at: new Date() }` of
`DegreesService.updateDegree` applied to one row: a column present in the
input overwrites the row's value, a column absent from the input is left
untouched, and `updated_at` is always set to the current time. -/
def applySet (d : Degree) (input : UpdateDegreeInput) (now : Nat) : Degree :=
  { d with
    name := input.name.getD d.name
    division := input.division.getD d.division
    description :=
      match input.description with
      | some s => some s
      | none => d.description
    updated_at := now }

/-- `DegreesService.updateDegree` (src/apps/api/src/services/degrees.ts
lines 64–81): update the rows whose id matches, setting
`{ ...input, updated_at: new Date() }`, and return the first updated row
(`orNull` of the destructured `returning()`), plus the table afterwards. -/
def updateDegree (db : List Degree) (id : String) (input : UpdateDegreeInput)
    (now : Nat) : Option Degree × List Degree :=
  (((db.filter fun d => d.id == id).map fun d => applySet d input now).head?,
   db.map fun d => if d.id == id then applySet d input now else d)

end DegreesService

/-! ## GraphQL degrees resolvers (from `src/unnamed/part_002`) -/

/-- A value thrown inside a resolver's try block: either a JavaScript
`Error` instance carrying its `message`, or a thrown non-`Error` value
(for which `error instanceof Error` is false). -/
inductive Thrown where
  | errVal (msg : String)
  | nonError
deriving Repr, DecidableEq

/-- The GraphQL error surface a resolver can produce, mirroring the error
classes used in `src/unnamed/part_002`. -/
inductive GqlOutcome (α : Type) where
  | ok (val : α)
  | badUserInput (msg : String)
  | internalError (msg : String)
  | authenticationError (msg : String)
  | forbiddenError (msg : String)
  | notFoundError (msg : String)
deriving Repr, DecidableEq

/-- Discriminant test: is this outcome a `BadUserInputError`? -/
def GqlOutcome.isBadUserInput {α : Type} : GqlOutcome α → Bool
  | .badUserInput _ => true
  | _ => false

/-- What the try block of `degreesResolvers.Query.degrees` did: either
`degreesQuerySchema.parse`, `degreeService.getDegrees` and
`degreeService.getDegreesCount` all succeeded, yielding the degrees and
the total count, or one of them threw a value. -/
inductive TryOutcome (α : Type) where
  | success (val : α)
  | thrown (t : Thrown)
deriving Repr, DecidableEq

/-- `degreesResolvers.Query.degrees` after the try block is entered
(src/unnamed/part_002 lines 30–50): a successful body returns the degrees
and total count; the catch clause rethrows any thrown `Error` instance —
whether it came from query parsing or from either service call — as
`BadUserInputError` with message `error.message || "Invalid query
parameters"`, and turns any non-`Error` thrown value into a `GraphQLError`
with code INTERNAL_SERVER_ERROR. -/
def degreesQueryResolver (body : TryOutcome (List Degree × Nat)) :
    GqlOutcome (List Degree × Nat) :=
  match body with
  | .success v => .ok v
  | .thrown (.errVal msg) =>
      .badUserInput (if msg = "" then "Invalid query parameters" else msg)
  | .thrown .nonError => .internalError "An unexpected error occurred."

/-- A user in the GraphQL context, with its role strings. -/
structure User where
  roles : List String
deriving Repr, DecidableEq

/-- An observable step of a mutation resolver: parsing the input schema,
or invoking a degreeService method. -/
inductive Event where
  | parseInput
  | serviceCall (method : String)
deriving Repr, DecidableEq

/-- Outcome of `schema.parse(input)`: the parsed value, or a thrown
`ZodError` (an `Error` instance) with its message. -/
inductive ParseOutcome (α : Type) where
  | ok (val : α)
  | zodError (msg : String)
deriving Repr, DecidableEq

/-- The guard every degrees mutation resolver starts with
(src/unnamed/part_002 lines 52–63, 91–101, 132–142): no user in the
context throws `AuthenticationError`, a user without the ADMIN role throws
`ForbiddenError`; only then does the body (input parsing and service
calls) run. The resolver's result carries the outcome, the database state
afterwards and the events the body performed. -/
def withMutationGuard {α : Type} (user : Option User)
    (rest : List Degree → GqlOutcome α × List Degree × List Event)
    (db : List Degree) : GqlOutcome α × List Degree × List Event :=
  match user with
  | none => (.authenticationError "You must be logged in to perform this action.", db, [])
  | some u =>
      if u.roles.contains "ADMIN" then rest db
      else (.forbiddenError "You do not have permission to perform this action.", db, [])

/-- The try block of `createDegree` (src/unnamed/part_002 lines 65–89):
parse the input with `createDegreeSchema` (a thrown `ZodError` is an
`Error`, so the catch maps it to a `GraphQLError` with its message), then
insert the new row via `degreeService.createDegree`. -/
def createDegreeBody (parsed : ParseOutcome CreateDegreeInput) (newId : String)
    (now : Nat) (db : List Degree) : GqlOutcome Degree × List Degree × List Event :=
  match parsed with
  | .zodError msg =>
      (.internalError (if msg = "" then "Failed to create degree." else msg), db, [.parseInput])
  | .ok input =>
      let d : Degree := ⟨newId, input.name, input.division, input.description, now, now⟩
      (.ok d, db ++ [d], [.parseInput, .serviceCall "createDegree"])

/-- The try block of `updateDegree` (src/unnamed/part_002 lines 103–130):
parse the input with `updateDegreeSchema`, call
`degreeService.updateDegree`, and throw `NotFoundError` when no row
matched. -/
def updateDegreeBody (id : String) (parsed : ParseOutcome UpdateDegreeInput)
    (now : Nat) (db : List Degree) : GqlOutcome Degree × List Degree × List Event :=
  match parsed with
  | .zodError msg =>
      (.internalError (if msg = "" then "Failed to update degree." else msg), db, [.parseInput])
  | .ok input =>
      match DegreesService.updateDegree db id input now with
      | (some r, db2) => (.ok r, db2, [.parseInput, .serviceCall "updateDegree"])
      | (none, db2) => (.notFoundError "Degree not found.", db2, [.parseInput, .serviceCall "updateDegree"])

/-- The try block of `deleteDegree` (src/unnamed/part_002 lines 144–164):
call `degreeService.deleteDegree` (src/apps/api/src/services/degrees.ts
lines 83–86: delete the matching rows, reporting whether any row was
deleted) and throw `NotFoundError` when nothing matched. -/
def deleteDegreeBody (id : String) (db : List Degree) :
    GqlOutcome String × List Degree × List Event :=
  if db.any fun d => d.id == id then
    (.ok "Degree deleted successfully.", db.filter fun d => !(d.id == id),
     [.serviceCall "deleteDegree"])
  else
    (.notFoundError "Degree not found.", db, [.serviceCall "deleteDegree"])

/-- `degreesResolvers.Mutation.createDegree`. -/
def createDegreeResolver (user : Option User) (parsed : ParseOutcome CreateDegreeInput)
    (newId : String) (now : Nat) (db : List Degree) :
    GqlOutcome Degree × List Degree × List Event :=
  withMutationGuard user (createDegreeBody parsed newId now) db

/-- `degreesResolvers.Mutation.updateDegree`. -/
def updateDegreeResolver (user : Option User) (id : String)
    (parsed : ParseOutcome UpdateDegreeInput) (now : Nat) (db : List Degree) :
    GqlOutcome Degree × List Degree × List Event :=
  withMutationGuard user (updateDegreeBody id parsed now) db

/-- `degreesResolvers.Mutation.deleteDegree`. -/
def deleteDegreeResolver (user : Option User) (id : String) (db : List Degree) :
    GqlOutcome String × List Degree × List Event :=
  withMutationGuard user (deleteDegreeBody id) db

/-! ## Theorems about the degrees layer -/

/-- C8 counterexample: the claim says every error thrown after the try
block of `Query.degrees` is entered is rethrown as `BadUserInputError`,
but when the thrown value is not an `Error` instance (e.g. a thrown
string), the catch clause produces a `GraphQLError` with code
INTERNAL_SERVER_ERROR instead. -/
theorem degreesQuery_nonError_counterexample :
    degreesQueryResolver (.thrown .nonError) =
      .internalError "An unexpected error occurred." ∧
    (degreesQueryResolver (.thrown .nonError)).isBadUserInput = false :=
  ⟨rfl, rfl⟩

/-- C8 (amended): every `Error` instance thrown after the try block of
`Query.degrees` is entered — including failures of
`degreeService.getDegrees` or `degreeService.getDegreesCount`, not only
query-parameter validation failures — is rethrown as `BadUserInputError`,
carrying the original error message when it is non-empty and the default
"Invalid query parameters" otherwise; so a data-access failure throwing an
`Error` reaches the client as a client-input error, while a non-`Error`
thrown value becomes an INTERNAL_SERVER_ERROR `GraphQLError`. -/
theorem degreesQuery_error_to_badUserInput (msg : String) :
    (degreesQueryResolver (.thrown (.errVal msg))).isBadUserInput = true ∧
    degreesQueryResolver (.thrown (.errVal msg)) =
      .badUserInput (if msg = "" then "Invalid query parameters" else msg) :=
  ⟨rfl, rfl⟩

/-- C9: every degrees mutation resolver (createDegree, updateDegree,
deleteDegree) throws `AuthenticationError` when the context has no user
and `ForbiddenError` when the user lacks the ADMIN role, in both cases
before the input is parsed and before any degreeService method is invoked
(no events), leaving the database state unchanged. -/
theorem degreesMutations_guard_before_effects
    (parsedC : ParseOutcome CreateDegreeInput) (parsedU : ParseOutcome UpdateDegreeInput)
    (newId idU idD : String) (now : Nat) (db : List Degree) (u : User)
    (hu : u.roles.contains "ADMIN" = false) :
    (createDegreeResolver none parsedC newId now db =
        (.authenticationError "You must be logged in to perform this action.", db, []) ∧
      updateDegreeResolver none idU parsedU now db =
        (.authenticationError "You must be logged in to perform this action.", db, []) ∧
      deleteDegreeResolver none idD db =
        (.authenticationError "You must be logged in to perform this action.", db, [])) ∧
    (createDegreeResolver (some u) parsedC newId now db =
        (.forbiddenError "You do not have permission to perform this action.", db, []) ∧
      updateDegreeResolver (some u) idU parsedU now db =
        (.forbiddenError "You do not have permission to perform this action.", db, []) ∧
      deleteDegreeResolver (some u) idD db =
        (.forbiddenError "You do not have permission to perform this action.", db, [])) := by
  have hmem : "ADMIN" ∉ u.roles := by simpa using hu
  unfold createDegreeResolver updateDegreeResolver deleteDegreeResolver withMutationGuard
  simp [hmem]

/-- A concrete degree row used by the degrees witnesses. -/
def fixDegree : Degree := ⟨"d1", "Arts", "Undergraduate", none, 3, 4⟩

theorem degreesMutations_guard_witness :
    (User.mk ["USER"]).roles.contains "ADMIN" = false ∧
    ((createDegreeResolver none (.ok ⟨"Data Science", "Undergraduate", none⟩) "d9" 5 [fixDegree] =
        (.authenticationError "You must be logged in to perform this action.", [fixDegree], []) ∧
      updateDegreeResolver none "d1" (.ok ⟨none, none, none⟩) 5 [fixDegree] =
        (.authenticationError "You must be logged in to perform this action.", [fixDegree], []) ∧
      deleteDegreeResolver none "d1" [fixDegree] =
        (.authenticationError "You must be logged in to perform this action.", [fixDegree], [])) ∧
    (createDegreeResolver (some ⟨["USER"]⟩) (.ok ⟨"Data Science", "Undergraduate", none⟩) "d9" 5
          [fixDegree] =
        (.forbiddenError "You do not have permission to perform this action.", [fixDegree], []) ∧
      updateDegreeResolver (some ⟨["USER"]⟩) "d1" (.ok ⟨none, none, none⟩) 5 [fixDegree] =
        (.forbiddenError "You do not have permission to perform this action.", [fixDegree], []) ∧
      deleteDegreeResolver (some ⟨["USER"]⟩) "d1" [fixDegree] =
        (.forbiddenError "You do not have permission to perform this action.", [fixDegree], []))) :=
  ⟨rfl,
    degreesMutations_guard_before_effects (.ok ⟨"Data Science", "Undergraduate", none⟩)
      (.ok ⟨none, none, none⟩) "d9" "d1" "d1" 5 [fixDegree] ⟨["USER"]⟩ rfl⟩

/-- `head?` of a filtered-then-mapped list is `find?` mapped. -/
theorem head_filter_map (p : Degree → Bool) (f : Degree → Degree) (db : List Degree) :
    ((db.filter p).map f).head? = (db.find? p).map f := by
  induction db with
  | nil => rfl
  | cons d tl ih =>
      by_cases h : p d
      · simp [List.filter_cons, List.find?_cons, h]
      · simp [List.filter_cons, List.find?_cons, h, ih]

/-- C10: when `DegreesService.updateDegree` matches an existing row, the
returned row keeps the previous value of every column absent from the
input — id and `created_at` are never touched — with the single exception
of `updated_at`, which is unconditionally overwritten with the current
time (also for an empty input); rows whose id does not match are left in
the table unchanged. -/
theorem updateDegree_frame (db : List Degree) (id : String) (input : UpdateDegreeInput)
    (now : Nat) (d : Degree) (hfind : db.find? (fun r => r.id == id) = some d) :
    ∃ r, (DegreesService.updateDegree db id input now).1 = some r ∧
      r.updated_at = now ∧
      r.id = d.id ∧
      r.created_at = d.created_at ∧
      (input.name = none → r.name = d.name) ∧
      (input.division = none → r.division = d.division) ∧
      (input.description = none → r.description = d.description) ∧
      ∀ e ∈ db, (e.id == id) = false →
        e ∈ (DegreesService.updateDegree db id input now).2 := by
  refine ⟨DegreesService.applySet d input now, ?_, rfl, rfl, rfl, ?_, ?_, ?_, ?_⟩
  · show ((db.filter fun r => r.id == id).map fun r =>
        DegreesService.applySet r input now).head? = _
    rw [head_filter_map, hfind]
    rfl
  · intro h
    simp [DegreesService.applySet, h]
  · intro h
    simp [DegreesService.applySet, h]
  · intro h
    simp [DegreesService.applySet, h]
  · intro e he hne
    have hmem := List.mem_map_of_mem
      (f := fun dd => if dd.id == id then DegreesService.applySet dd input now else dd) he
    have hfe : (fun dd => if (dd.id == id) = true then DegreesService.applySet dd input now
        else dd) e = e := by
      simp [hne]
    rw [hfe] at hmem
    exact hmem

theorem updateDegree_frame_witness :
    ([fixDegree].find? fun r => r.id == "d1") = some fixDegree ∧
    (∃ r, (DegreesService.updateDegree [fixDegree] "d1" ⟨none, none, none⟩ 99).1 = some r ∧
      r.updated_at = 99 ∧
      r.id = fixDegree.id ∧
      r.created_at = fixDegree.created_at ∧
      ((UpdateDegreeInput.mk none none none).name = none → r.name = fixDegree.name) ∧
      ((UpdateDegreeInput.mk none none none).division = none → r.division = fixDegree.division) ∧
      ((UpdateDegreeInput.mk none none none).description = none →
        r.description = fixDegree.description) ∧
      ∀ e ∈ [fixDegree], (e.id == "d1") = false →
        e ∈ (DegreesService.updateDegree [fixDegree] "d1" ⟨none, none, none⟩ 99).2) :=
  ⟨rfl, updateDegree_frame [fixDegree] "d1" ⟨none, none, none⟩ 99 fixDegree rfl⟩

end Anteater
